import Mathlib

/-!
# BMFR denoise pass: frame sequencing

A shallow embedding of `BMFR_Denoiser/Passes/DenoisePass.cpp`
(class `BlockwiseMultiOrderFeatureRegression`) and theorems about its
per-frame behaviour.

Modelling conventions.

* The pass talks to two objects it does not own: the resource manager
  (`mpResManager`, shared with the other passes of the pipeline) and the render
  context (`pRenderContext`).  Both live in `World`, next to the pass object.
* A pointer that the source tests before use is nullable here (`mpResManager`,
  the texture registered under `mDenoiseChannel`).  A pointer the source
  dereferences with no test (`mpScene`, `mpGfxState`, the three shader objects,
  the textures with fixed names) points to an object.
* Texture contents are never inspected by the C++ code, only moved around; they
  are lists of words.
* A fullscreen launch is recorded in the render context together with the
  shader variables bound at that moment and the texture contents it can fetch.
-/

namespace BMFR

/-! ## Resources -/

/-- Texel data of one texture. -/
abbrev Pixels := List Nat

/-- Names under which the pass looks textures up.  `denoiseChannel` stands for
the caller-supplied name held in `mDenoiseChannel`; the other names are the
string literals of the source.  The caller-supplied name is a resource of its
own, different from the eleven fixed names. -/
inductive Texture where
  | denoiseChannel
  | WorldPosition
  | WorldNormal
  | MaterialDiffuse
  | BMFR_PrevNorm
  | BMFR_PrevPos
  | BMFR_PrevNoisy
  | BMFR_CurNorm
  | BMFR_CurPos
  | BMFR_AcceptedBools
  | BMFR_PrevFramePixel
  | BMFR_Output
  deriving DecidableEq

/-- A `Texture::SharedPtr`: null or a texture of the resource manager. -/
abbrev TexturePtr := Option Texture

/-- Contents of the resource manager.  Only the texture behind
`mDenoiseChannel` may be missing (it is the one `execute` tests). -/
structure ResourceManager where
  denoiseChannel : Option Pixels
  WorldPosition : Pixels
  WorldNormal : Pixels
  MaterialDiffuse : Pixels
  BMFR_PrevNorm : Pixels
  BMFR_PrevPos : Pixels
  BMFR_PrevNoisy : Pixels
  BMFR_CurNorm : Pixels
  BMFR_CurPos : Pixels
  BMFR_AcceptedBools : Pixels
  BMFR_PrevFramePixel : Pixels
  BMFR_Output : Pixels
  deriving DecidableEq

/-- Lookup `ResourceManager::getTexture(name)`: null when there is no such texture. -/
def ResourceManager.getTexture (rm : ResourceManager) (name : Texture) : TexturePtr :=
  match name with
  | .denoiseChannel => if rm.denoiseChannel.isSome then some .denoiseChannel else none
  | t => some t

/-- Texel data currently held by a texture. -/
def ResourceManager.read (rm : ResourceManager) : Texture → Option Pixels
  | .denoiseChannel => rm.denoiseChannel
  | .WorldPosition => some rm.WorldPosition
  | .WorldNormal => some rm.WorldNormal
  | .MaterialDiffuse => some rm.MaterialDiffuse
  | .BMFR_PrevNorm => some rm.BMFR_PrevNorm
  | .BMFR_PrevPos => some rm.BMFR_PrevPos
  | .BMFR_PrevNoisy => some rm.BMFR_PrevNoisy
  | .BMFR_CurNorm => some rm.BMFR_CurNorm
  | .BMFR_CurPos => some rm.BMFR_CurPos
  | .BMFR_AcceptedBools => some rm.BMFR_AcceptedBools
  | .BMFR_PrevFramePixel => some rm.BMFR_PrevFramePixel
  | .BMFR_Output => some rm.BMFR_Output

/-- Overwrite the texel data of a texture. -/
def ResourceManager.write (rm : ResourceManager) (t : Texture) (px : Pixels) : ResourceManager :=
  match t with
  | .denoiseChannel => { rm with denoiseChannel := some px }
  | .WorldPosition => { rm with WorldPosition := px }
  | .WorldNormal => { rm with WorldNormal := px }
  | .MaterialDiffuse => { rm with MaterialDiffuse := px }
  | .BMFR_PrevNorm => { rm with BMFR_PrevNorm := px }
  | .BMFR_PrevPos => { rm with BMFR_PrevPos := px }
  | .BMFR_PrevNoisy => { rm with BMFR_PrevNoisy := px }
  | .BMFR_CurNorm => { rm with BMFR_CurNorm := px }
  | .BMFR_CurPos => { rm with BMFR_CurPos := px }
  | .BMFR_AcceptedBools => { rm with BMFR_AcceptedBools := px }
  | .BMFR_PrevFramePixel => { rm with BMFR_PrevFramePixel := px }
  | .BMFR_Output => { rm with BMFR_Output := px }

/-- Texel data behind a pointer; nothing behind a null pointer. -/
def ResourceManager.fetch (rm : ResourceManager) (p : TexturePtr) : Option Pixels :=
  p.bind rm.read

/-- Store through a pointer; a null pointer receives nothing. -/
def ResourceManager.store (rm : ResourceManager) (p : TexturePtr) (px : Pixels) : ResourceManager :=
  match p with
  | some t => rm.write t px
  | none => rm

/-! ## Scene, framebuffer, shader variables -/

/-- Camera parameters, as one code. -/
abbrev Camera := Nat

/-- The scene handed to `initScene`. -/
structure Scene where
  activeCamera : Camera
  deriving DecidableEq

/-- Framebuffer made by `ResourceManager::createFbo(width, height, RGBA32Float)`.
Its colour attachment is written by the launches and never read by the pass;
only the size is kept. -/
structure Fbo where
  width : Nat
  height : Nat
  deriving DecidableEq

/-- Graphics pipe state `mpGfxState`: the framebuffer attached to it. -/
structure GraphicsState where
  fbo : Option Fbo
  deriving DecidableEq

/-- Struct `mInputTex`. -/
structure InputTex where
  curPos : TexturePtr
  curNorm : TexturePtr
  curNoisy : TexturePtr
  prevPos : TexturePtr
  prevNorm : TexturePtr
  prevNoisy : TexturePtr
  accept_bools : TexturePtr
  prevFramePixel : TexturePtr
  output : TexturePtr
  deriving DecidableEq

/-- Variables of `mpDenoiseShader` (bmfrDenoise.ps.hlsl) set by `execute`. -/
structure DenoiseVars where
  gAccumCount : Nat
  gPos : TexturePtr
  gNorm : TexturePtr
  gDiffuseMatl : TexturePtr
  deriving DecidableEq

/-- Variables of `mpPreprocessShader` (preprocess.ps.hlsl). -/
structure PreprocessVars where
  camera : Camera
  gCurPos : TexturePtr
  gCurNorm : TexturePtr
  gCurNoisy : TexturePtr
  gPrevPos : TexturePtr
  gPrevNorm : TexturePtr
  gPrevNoisy : TexturePtr
  accept_bools : TexturePtr
  out_prev_frame_pixel : TexturePtr
  frame_number : Nat
  deriving DecidableEq

/-- Variables of `mpPostShader` (postprocess.ps.hlsl). -/
structure PostVars where
  filtered_frame : TexturePtr
  accumulated_prev_frame : TexturePtr
  albedo : TexturePtr
  in_prev_frame_pixel : TexturePtr
  accept_bools : TexturePtr
  frame_number : Nat
  accumulated_frame : TexturePtr
  deriving DecidableEq

/-- What a preprocess launch can fetch: the data behind every bound texture
(those it writes included), the camera and the frame number. -/
structure PreprocessIn where
  camera : Camera
  gCurPos : Option Pixels
  gCurNorm : Option Pixels
  gCurNoisy : Option Pixels
  gPrevPos : Option Pixels
  gPrevNorm : Option Pixels
  gPrevNoisy : Option Pixels
  accept_bools : Option Pixels
  out_prev_frame_pixel : Option Pixels
  frame_number : Nat
  deriving DecidableEq

/-- What a preprocess launch writes. -/
structure PreprocessOut where
  accept_bools : Pixels
  out_prev_frame_pixel : Pixels
  deriving DecidableEq

/-- What a postprocess launch can fetch. -/
structure PostIn where
  filtered_frame : Option Pixels
  accumulated_prev_frame : Option Pixels
  albedo : Option Pixels
  in_prev_frame_pixel : Option Pixels
  accept_bools : Option Pixels
  frame_number : Nat
  accumulated_frame : Option Pixels
  deriving DecidableEq

/-- Modelled from the spec: the shader programs preprocess.ps.hlsl and
postprocess.ps.hlsl and the header DenoisePass.h are not among the sources.
The Reprojection stage "emits a sub-pixel reprojected coordinate and a
per-pixel acceptance flag" (`BMFR_PrevFramePixel`, `BMFR_AcceptedBools`), the
Temporal Blend stage produces the `output` buffer (`BMFR_Output`); what they
compute is left open, so each program is an arbitrary function of what it
can fetch.  `counterBits` is the width of the integer type the header gives
`mAccumCount`. -/
structure Absent where
  counterBits : Nat
  preprocess : PreprocessIn → PreprocessOut
  postprocess : PostIn → Pixels

/-! ## Render context -/

/-- Work submitted to the render context. -/
inductive Cmd where
  | executeDenoise (vars : DenoiseVars) (target : GraphicsState)
  | executePreprocess (vars : PreprocessVars) (reads : PreprocessIn) (target : GraphicsState)
  | executePost (vars : PostVars) (reads : PostIn) (target : GraphicsState)
  | blit (src dst : TexturePtr)
  deriving DecidableEq

/-- Commands received so far, oldest first. -/
abbrev RenderContext := List Cmd

/-! ## The pass -/

/-- Data members of `BlockwiseMultiOrderFeatureRegression`.  `mpResManager`
is `true` once the pointer is set; the object it points to is
`World.resources`. -/
structure Pass where
  mpResManager : Bool
  mpScene : Scene
  mpInternalFbo : Option Fbo
  mpGfxState : GraphicsState
  mpDenoiseShader : DenoiseVars
  mpPreprocessShader : PreprocessVars
  mpPostShader : PostVars
  mInputTex : InputTex
  mAccumCount : Nat
  mNeedFboClear : Bool
  mDoDenoise : Bool
  mBMFR_preprocess : Bool
  mBMFR_postprocess : Bool
  deriving DecidableEq

/-- The pass object with the two objects it works on. -/
structure World where
  self : Pass
  resources : ResourceManager
  context : RenderContext
  deriving DecidableEq

/-- Method `initScene(pRenderContext, pScene)`. -/
def initScene (pScene : Scene) (w : World) : World :=
  { w with self := { w.self with mpScene := pScene, mAccumCount := 0 } }

/-- Method `resize(width, height)`. -/
def resize (width height : Nat) (w : World) : World :=
  let fbo : Fbo := { width := width, height := height }
  { w with self := { w.self with
      mpInternalFbo := some fbo
      mpGfxState := { fbo := some fbo }
      mNeedFboClear := true
      mAccumCount := 0 } }

/-- Method `clearFbos(pCtx)`. -/
def clearFbos (w : World) : World :=
  { w with self := { w.self with mNeedFboClear := false } }

/-- Call `pRenderContext->blit(src->getSRV(), dst->getRTV())`: the destination
receives the source data.  (With a null source there is nothing to copy;
`execute` never gets there.) -/
def blit (src dst : TexturePtr) (w : World) : World :=
  { w with
    context := w.context ++ [Cmd.blit src dst]
    resources :=
      match w.resources.fetch src with
      | some px => w.resources.store dst px
      | none => w.resources }

/-- Data a preprocess launch fetches through its variables. -/
def PreprocessVars.reads (v : PreprocessVars) (rm : ResourceManager) : PreprocessIn :=
  { camera := v.camera
    gCurPos := rm.fetch v.gCurPos
    gCurNorm := rm.fetch v.gCurNorm
    gCurNoisy := rm.fetch v.gCurNoisy
    gPrevPos := rm.fetch v.gPrevPos
    gPrevNorm := rm.fetch v.gPrevNorm
    gPrevNoisy := rm.fetch v.gPrevNoisy
    accept_bools := rm.fetch v.accept_bools
    out_prev_frame_pixel := rm.fetch v.out_prev_frame_pixel
    frame_number := v.frame_number }

/-- Data a postprocess launch fetches through its variables. -/
def PostVars.reads (v : PostVars) (rm : ResourceManager) : PostIn :=
  { filtered_frame := rm.fetch v.filtered_frame
    accumulated_prev_frame := rm.fetch v.accumulated_prev_frame
    albedo := rm.fetch v.albedo
    in_prev_frame_pixel := rm.fetch v.in_prev_frame_pixel
    accept_bools := rm.fetch v.accept_bools
    frame_number := v.frame_number
    accumulated_frame := rm.fetch v.accumulated_frame }

/-- Call `mpPreprocessShader->execute(pRenderContext, mpGfxState)`. -/
def executePreprocessShader (X : Absent) (w : World) : World :=
  let v := w.self.mpPreprocessShader
  let i := v.reads w.resources
  let o := X.preprocess i
  { w with
    context := w.context ++ [Cmd.executePreprocess v i w.self.mpGfxState]
    resources :=
      (w.resources.store v.accept_bools o.accept_bools).store
        v.out_prev_frame_pixel o.out_prev_frame_pixel }

/-- Call `mpPostShader->execute(pRenderContext, mpGfxState)`. -/
def executePostShader (X : Absent) (w : World) : World :=
  let v := w.self.mpPostShader
  let i := v.reads w.resources
  { w with
    context := w.context ++ [Cmd.executePost v i w.self.mpGfxState]
    resources := w.resources.store v.accumulated_frame (X.postprocess i) }

/-- Method `accumulate_noisy_data(pRenderContext)`. -/
def accumulate_noisy_data (X : Absent) (w : World) : World :=
  let w : World := { w with self := { w.self with
    mpPreprocessShader := { w.self.mpPreprocessShader with
      camera := w.self.mpScene.activeCamera } } }
  let w : World := { w with self := { w.self with
    mpPreprocessShader := { w.self.mpPreprocessShader with
      gCurPos := w.self.mInputTex.curPos
      gCurNorm := w.self.mInputTex.curNorm
      gCurNoisy := w.self.mInputTex.curNoisy
      gPrevPos := w.self.mInputTex.prevPos
      gPrevNorm := w.self.mInputTex.prevNorm
      gPrevNoisy := w.self.mInputTex.prevNoisy
      accept_bools := w.self.mInputTex.accept_bools
      out_prev_frame_pixel := w.self.mInputTex.prevFramePixel
      frame_number := w.self.mAccumCount } } }
  executePreprocessShader X w

/-- Method `accumulate_filtered_data(pRenderContext)`. -/
def accumulate_filtered_data (X : Absent) (w : World) : World :=
  let w : World := { w with self := { w.self with
    mpPostShader := { w.self.mpPostShader with
      filtered_frame := w.self.mInputTex.curNoisy
      accumulated_prev_frame := w.self.mInputTex.prevNoisy
      albedo := w.resources.getTexture .MaterialDiffuse
      in_prev_frame_pixel := w.self.mInputTex.prevFramePixel
      accept_bools := w.self.mInputTex.accept_bools
      frame_number := w.self.mAccumCount
      accumulated_frame := w.self.mInputTex.output } } }
  executePostShader X w

/-- Method `execute(pRenderContext)`. -/
def execute (X : Absent) (w : World) : World :=
  if !w.self.mpResManager then w else
  let inputTexture := w.resources.getTexture .denoiseChannel
  if inputTexture.isNone || !w.self.mDoDenoise then w else
  let w := if w.self.mNeedFboClear then clearFbos w else w
  let w : World := { w with self := { w.self with
    mInputTex := {
      curPos := w.resources.getTexture .WorldPosition
      curNorm := w.resources.getTexture .WorldNormal
      curNoisy := w.resources.getTexture .denoiseChannel
      prevPos := w.resources.getTexture .BMFR_PrevPos
      prevNorm := w.resources.getTexture .BMFR_PrevNorm
      prevNoisy := w.resources.getTexture .BMFR_PrevNoisy
      accept_bools := w.resources.getTexture .BMFR_AcceptedBools
      prevFramePixel := w.resources.getTexture .BMFR_PrevFramePixel
      output := w.resources.getTexture .BMFR_Output } } }
  let w : World := { w with self := { w.self with
    mpDenoiseShader := {
      gAccumCount := w.self.mAccumCount
      gPos := w.resources.getTexture .WorldPosition
      gNorm := w.resources.getTexture .WorldNormal
      gDiffuseMatl := w.resources.getTexture .MaterialDiffuse } } }
  let w := if w.self.mBMFR_preprocess then accumulate_noisy_data X w else w
  let w := if w.self.mBMFR_postprocess then accumulate_filtered_data X w else w
  let w := blit w.self.mInputTex.curNoisy w.self.mInputTex.prevNoisy w
  let w := blit w.self.mInputTex.curNorm w.self.mInputTex.prevNorm w
  let w := blit w.self.mInputTex.curPos w.self.mInputTex.prevPos w
  let w := if w.self.mBMFR_postprocess
    then blit w.self.mInputTex.output w.self.mInputTex.curNoisy w else w
  { w with self := { w.self with
      mAccumCount := (w.self.mAccumCount + 1) % 2 ^ X.counterBits } }


/-! ## Vocabulary of the statements -/

/-- An executed frame: the call passes both early returns of `execute`
(resource manager set, texture of the denoise channel there, denoise on). -/
def Executed (w : World) : Bool :=
  w.self.mpResManager && (w.resources.getTexture .denoiseChannel).isSome && w.self.mDoDenoise

/-- Commands one call of `execute` adds to the render context. -/
def issued (X : Absent) (w : World) : List Cmd :=
  (execute X w).context.drop w.context.length

/-- Variables the preprocess shader holds when a frame starting in `w` launches it. -/
def preprocessVars (w : World) : PreprocessVars :=
  { camera := w.self.mpScene.activeCamera
    gCurPos := some .WorldPosition
    gCurNorm := some .WorldNormal
    gCurNoisy := some .denoiseChannel
    gPrevPos := some .BMFR_PrevPos
    gPrevNorm := some .BMFR_PrevNorm
    gPrevNoisy := some .BMFR_PrevNoisy
    accept_bools := some .BMFR_AcceptedBools
    out_prev_frame_pixel := some .BMFR_PrevFramePixel
    frame_number := w.self.mAccumCount }

/-- Variables the postprocess shader holds when a frame starting in `w` launches it. -/
def postVars (w : World) : PostVars :=
  { filtered_frame := some .denoiseChannel
    accumulated_prev_frame := some .BMFR_PrevNoisy
    albedo := some .MaterialDiffuse
    in_prev_frame_pixel := some .BMFR_PrevFramePixel
    accept_bools := some .BMFR_AcceptedBools
    frame_number := w.self.mAccumCount
    accumulated_frame := some .BMFR_Output }

/-- Resources as the preprocess stage of a frame starting in `w` leaves them. -/
def afterPreprocess (X : Absent) (w : World) : ResourceManager :=
  if w.self.mBMFR_preprocess then
    let o := X.preprocess ((preprocessVars w).reads w.resources)
    { w.resources with
      BMFR_AcceptedBools := o.accept_bools
      BMFR_PrevFramePixel := o.out_prev_frame_pixel }
  else w.resources

/-- Resources as the stages of a frame starting in `w` leave them. -/
def afterStages (X : Absent) (w : World) : ResourceManager :=
  if w.self.mBMFR_postprocess then
    { afterPreprocess X w with
      BMFR_Output := X.postprocess ((postVars w).reads (afterPreprocess X w)) }
  else afterPreprocess X w

/-- Launches of a frame starting in `w`, in order. -/
def stageCmds (X : Absent) (w : World) : List Cmd :=
  (if w.self.mBMFR_preprocess then
    [Cmd.executePreprocess (preprocessVars w) ((preprocessVars w).reads w.resources)
      w.self.mpGfxState] else []) ++
  (if w.self.mBMFR_postprocess then
    [Cmd.executePost (postVars w) ((postVars w).reads (afterPreprocess X w))
      w.self.mpGfxState] else [])

/-- Copies of a frame starting in `w`, in order. -/
def copyCmds (w : World) : List Cmd :=
  [Cmd.blit (some .denoiseChannel) (some .BMFR_PrevNoisy),
   Cmd.blit (some .WorldNormal) (some .BMFR_PrevNorm),
   Cmd.blit (some .WorldPosition) (some .BMFR_PrevPos)] ++
  (if w.self.mBMFR_postprocess then
    [Cmd.blit (some .BMFR_Output) (some .denoiseChannel)] else [])

/-- Resources at the end of a frame starting in `w`: the three history copies,
then the copy of the output into the denoise channel when postprocess is on. -/
def afterCopies (X : Absent) (w : World) : ResourceManager :=
  { afterStages X w with
    BMFR_PrevNoisy := w.resources.denoiseChannel.getD []
    BMFR_PrevNorm := w.resources.WorldNormal
    BMFR_PrevPos := w.resources.WorldPosition
    denoiseChannel :=
      if w.self.mBMFR_postprocess then some (afterStages X w).BMFR_Output
      else w.resources.denoiseChannel }

/-- Pass object at the end of a frame starting in `w`. -/
def passAfterFrame (X : Absent) (w : World) : Pass :=
  { w.self with
    mNeedFboClear := false
    mInputTex :=
      { curPos := some .WorldPosition
        curNorm := some .WorldNormal
        curNoisy := some .denoiseChannel
        prevPos := some .BMFR_PrevPos
        prevNorm := some .BMFR_PrevNorm
        prevNoisy := some .BMFR_PrevNoisy
        accept_bools := some .BMFR_AcceptedBools
        prevFramePixel := some .BMFR_PrevFramePixel
        output := some .BMFR_Output }
    mpDenoiseShader :=
      { gAccumCount := w.self.mAccumCount
        gPos := some .WorldPosition
        gNorm := some .WorldNormal
        gDiffuseMatl := some .MaterialDiffuse }
    mpPreprocessShader :=
      if w.self.mBMFR_preprocess then preprocessVars w else w.self.mpPreprocessShader
    mpPostShader :=
      if w.self.mBMFR_postprocess then postVars w else w.self.mpPostShader
    mAccumCount := (w.self.mAccumCount + 1) % 2 ^ X.counterBits }

/-- What the host does between two calls of `execute`: the GUI may flip the
three check boxes, the other passes may rewrite (or drop) any texture. -/
structure HostUpdate where
  mDoDenoise : Bool
  mBMFR_preprocess : Bool
  mBMFR_postprocess : Bool
  resources : ResourceManager
  deriving DecidableEq

/-- State in which the next `execute` call is made. -/
def HostUpdate.apply (u : HostUpdate) (w : World) : World :=
  { w with
    self := { w.self with
      mDoDenoise := u.mDoDenoise
      mBMFR_preprocess := u.mBMFR_preprocess
      mBMFR_postprocess := u.mBMFR_postprocess }
    resources := u.resources }

/-- A sequence of `execute` calls, each made after an update by the host. -/
def runFrames (X : Absent) : World → List HostUpdate → World
  | w, [] => w
  | w, u :: us => runFrames X (execute X (u.apply w)) us

/-- How many calls of the sequence are executed frames. -/
def executedFrames (X : Absent) : World → List HostUpdate → Nat
  | _, [] => 0
  | w, u :: us =>
    (if Executed (u.apply w) then 1 else 0) + executedFrames X (execute X (u.apply w)) us

/-- Frame number a command hands to its shader, if it is a stage launch. -/
def Cmd.frame_number : Cmd → Option Nat
  | .executePreprocess v _ _ => some v.frame_number
  | .executePost v _ _ => some v.frame_number
  | _ => none

/-- Recogniser of a launch of the bmfrDenoise shader. -/
def Cmd.isDenoise : Cmd → Bool
  | .executeDenoise _ _ => true
  | _ => false

/-- Recogniser of a launch of the preprocess shader. -/
def Cmd.isPreprocess : Cmd → Bool
  | .executePreprocess _ _ _ => true
  | _ => false

/-- Recogniser of a launch of the postprocess shader. -/
def Cmd.isPost : Cmd → Bool
  | .executePost _ _ _ => true
  | _ => false

/-- Recogniser of a copy. -/
def Cmd.isBlit : Cmd → Bool
  | .blit _ _ => true
  | _ => false

/-! ## Concrete data for the evaluations -/

/-- Shader programs to evaluate with: the preprocess stand-in reports the frame
number and the history position it fetched, the postprocess stand-in adds 100
to every word of `filtered_frame`; the counter is 32 bits wide. -/
def sampleShaders : Absent :=
  { counterBits := 32
    preprocess := fun i =>
      { accept_bools := [i.frame_number]
        out_prev_frame_pixel := i.gPrevPos.getD [] }
    postprocess := fun i => (i.filtered_frame.getD []).map (· + 100) }

/-- Resource manager with recognisable data in every texture. -/
def sampleResources : ResourceManager :=
  { denoiseChannel := some [1, 2]
    WorldPosition := [10, 11]
    WorldNormal := [20, 21]
    MaterialDiffuse := [30, 31]
    BMFR_PrevNorm := [40, 41]
    BMFR_PrevPos := [50, 51]
    BMFR_PrevNoisy := [60, 61]
    BMFR_CurNorm := []
    BMFR_CurPos := []
    BMFR_AcceptedBools := [70]
    BMFR_PrevFramePixel := [80]
    BMFR_Output := [90, 91] }

/-- Pass object some frames into a run: counter at 5, no clear pending, all
three check boxes ticked. -/
def samplePass : Pass :=
  { mpResManager := true
    mpScene := { activeCamera := 3 }
    mpInternalFbo := some { width := 4, height := 4 }
    mpGfxState := { fbo := some { width := 4, height := 4 } }
    mpDenoiseShader := { gAccumCount := 4, gPos := none, gNorm := none, gDiffuseMatl := none }
    mpPreprocessShader :=
      { camera := 3, gCurPos := none, gCurNorm := none, gCurNoisy := none, gPrevPos := none
        gPrevNorm := none, gPrevNoisy := none, accept_bools := none
        out_prev_frame_pixel := none, frame_number := 4 }
    mpPostShader :=
      { filtered_frame := none, accumulated_prev_frame := none, albedo := none
        in_prev_frame_pixel := none, accept_bools := none, frame_number := 4
        accumulated_frame := none }
    mInputTex :=
      { curPos := none, curNorm := none, curNoisy := none, prevPos := none, prevNorm := none
        prevNoisy := none, accept_bools := none, prevFramePixel := none, output := none }
    mAccumCount := 5
    mNeedFboClear := false
    mDoDenoise := true
    mBMFR_preprocess := true
    mBMFR_postprocess := true }

/-- The sample pass with the sample resources and an empty render context. -/
def sampleWorld : World :=
  { self := samplePass, resources := sampleResources, context := [] }

/-- Host update that leaves the sample resources in place, denoise on. -/
def sampleOn (pre post : Bool) : HostUpdate :=
  { mDoDenoise := true, mBMFR_preprocess := pre, mBMFR_postprocess := post
    resources := sampleResources }

/-- Host update that unticks the denoise check box. -/
def sampleOff : HostUpdate :=
  { mDoDenoise := false, mBMFR_preprocess := true, mBMFR_postprocess := true
    resources := sampleResources }

/-- Host update after which the texture of the denoise channel is missing. -/
def sampleNoInput : HostUpdate :=
  { mDoDenoise := true, mBMFR_preprocess := true, mBMFR_postprocess := true
    resources := { sampleResources with denoiseChannel := none } }

/-- Host update after one frame on the sample world: the renderer has written
new position, normal and noisy data, the history textures are as the frame
left them, postprocess is unticked. -/
def sampleNext : HostUpdate :=
  { mDoDenoise := true, mBMFR_preprocess := true, mBMFR_postprocess := false
    resources :=
      { sampleResources with
        denoiseChannel := some [3, 4]
        WorldPosition := [12, 13]
        WorldNormal := [22, 23]
        BMFR_PrevPos := [10, 11]
        BMFR_PrevNorm := [20, 21]
        BMFR_PrevNoisy := [1, 2] } }

/-! ## One call of `execute` in closed form -/

theorem Executed_eq_true (w : World) :
    Executed w = true ↔
      w.self.mpResManager = true ∧ w.resources.denoiseChannel.isSome = true ∧
        w.self.mDoDenoise = true := by
  unfold Executed ResourceManager.getTexture
  cases w.resources.denoiseChannel <;> simp [and_assoc]

theorem execute_skipped (X : Absent) (w : World) (h : Executed w = false) :
    execute X w = w := by
  unfold Executed at h
  unfold execute
  cases hr : w.self.mpResManager <;> simp [hr] at h ⊢
  intro h1 h2
  cases hd : w.self.mDoDenoise <;> simp_all

theorem execute_executed (X : Absent) (w : World) (h : Executed w = true) :
    execute X w =
      { self := passAfterFrame X w
        resources := afterCopies X w
        context := w.context ++ (stageCmds X w ++ copyCmds w) } := by
  obtain ⟨⟨rmSet, sc, fbo, gs, dv, pv, qv, it, n, clr, dd, pre, post⟩, rm, ctx⟩ := w
  obtain ⟨ch, wp, wn, md, pn, pp, pno, cn, cp, ab, pfp, out⟩ := rm
  cases ch with
  | none => simp [Executed, ResourceManager.getTexture] at h
  | some noisy =>
    simp [Executed, ResourceManager.getTexture] at h
    obtain ⟨h1, h2⟩ := h
    subst h1 h2
    cases clr <;> cases pre <;> cases post <;>
      simp [execute, clearFbos, accumulate_noisy_data, accumulate_filtered_data,
        executePreprocessShader, executePostShader, blit, stageCmds, copyCmds,
        ResourceManager.getTexture, ResourceManager.fetch, ResourceManager.store,
        ResourceManager.read, ResourceManager.write, preprocessVars, postVars,
        afterPreprocess, afterStages, afterCopies, passAfterFrame,
        PreprocessVars.reads, PostVars.reads]

theorem issued_skipped (X : Absent) (w : World) (h : Executed w = false) :
    issued X w = [] := by
  simp [issued, execute_skipped X w h]

theorem issued_executed (X : Absent) (w : World) (h : Executed w = true) :
    issued X w = stageCmds X w ++ copyCmds w := by
  simp [issued, execute_executed X w h]

theorem execute_count (X : Absent) (w : World) :
    (execute X w).self.mAccumCount =
      if Executed w then (w.self.mAccumCount + 1) % 2 ^ X.counterBits
      else w.self.mAccumCount := by
  cases h : Executed w
  · simp [execute_skipped X w h]
  · simp [execute_executed X w h, passAfterFrame]

theorem runFrames_count (X : Absent) (us : List HostUpdate) :
    ∀ w : World, w.self.mAccumCount + executedFrames X w us < 2 ^ X.counterBits →
      (runFrames X w us).self.mAccumCount = w.self.mAccumCount + executedFrames X w us := by
  induction us with
  | nil => intro w _; simp [runFrames, executedFrames]
  | cons u us ih =>
    intro w hw
    simp only [runFrames, executedFrames] at hw ⊢
    have hc := execute_count X (u.apply w)
    have hu : (u.apply w).self.mAccumCount = w.self.mAccumCount := rfl
    cases h : Executed (u.apply w)
    · simp only [h, hu] at hc hw ⊢
      simp only [Bool.false_eq_true, if_false] at hc hw ⊢
      rw [ih _ (by omega), hc]
      omega
    · simp only [h, hu, if_true] at hc hw ⊢
      have hlt : w.self.mAccumCount + 1 < 2 ^ X.counterBits := by omega
      rw [Nat.mod_eq_of_lt hlt] at hc
      rw [ih _ (by omega), hc]
      omega

/-! ## Counter lifecycle -/

/-- Claim C1.  Starting right after `resize` or `initScene`, after any
sequence of `execute` calls (the host changing check boxes and textures in
between, the counter not overflowing) `mAccumCount` is the number of executed
frames among them.  One call raises the counter by exactly 1 when it is an
executed frame, whatever the preprocess and postprocess check boxes are, and
leaves it unchanged otherwise. -/
theorem counter_lifecycle (X : Absent) (w₀ start w : World) (width height : Nat)
    (pScene : Scene) (us : List HostUpdate)
    (hStart : start = resize width height w₀ ∨ start = initScene pScene w₀)
    (hRun : executedFrames X start us < 2 ^ X.counterBits)
    (hw : w.self.mAccumCount + 1 < 2 ^ X.counterBits) :
    start.self.mAccumCount = 0 ∧
    (runFrames X start us).self.mAccumCount = executedFrames X start us ∧
    (Executed w = true → (execute X w).self.mAccumCount = w.self.mAccumCount + 1) ∧
    (Executed w = false → (execute X w).self.mAccumCount = w.self.mAccumCount) := by
  have h0 : start.self.mAccumCount = 0 := by
    rcases hStart with h | h <;> subst h <;> rfl
  refine ⟨h0, ?_, ?_, ?_⟩
  · have h := runFrames_count X us start
    rw [h0] at h
    simpa using h (by omega)
  · intro h
    rw [execute_count, h, if_pos rfl, Nat.mod_eq_of_lt hw]
  · intro h
    rw [execute_count, h]
    simp

/-- Evaluation of C1: five calls after a resize, two of them skipped. -/
theorem counter_lifecycle_witness :
    (runFrames sampleShaders (resize 4 4 sampleWorld)
        [sampleOn true true, sampleOff, sampleOn false true, sampleNoInput,
          sampleOn false false]).self.mAccumCount = 3 ∧
    (execute sampleShaders sampleWorld).self.mAccumCount = 6 := by
  have h := counter_lifecycle sampleShaders sampleWorld (resize 4 4 sampleWorld) sampleWorld
    4 4 { activeCamera := 0 }
    [sampleOn true true, sampleOff, sampleOn false true, sampleNoInput, sampleOn false false]
    (Or.inl rfl) (by decide) (by decide)
  exact ⟨h.2.1.trans (by decide), h.2.2.1 (by decide)⟩

/-! ## Skipped frames -/

/-- Claim C2.  When the resource manager is not set, or the texture of the
denoise channel is missing, or `mDoDenoise` is off, `execute` submits nothing
to the render context (no launch, no blit) and leaves the pass object and
every texture as they were. -/
theorem skipped_frame_is_noop (X : Absent) (w : World)
    (h : w.self.mpResManager = false ∨ w.resources.getTexture .denoiseChannel = none ∨
      w.self.mDoDenoise = false) :
    execute X w = w ∧ issued X w = [] := by
  have hs : Executed w = false := by
    unfold Executed
    rcases h with h | h | h <;> simp [h]
  exact ⟨execute_skipped X w hs, issued_skipped X w hs⟩

/-- Evaluation of C2 with the denoise check box unticked. -/
theorem skipped_frame_is_noop_witness :
    execute sampleShaders (sampleOff.apply sampleWorld) = sampleOff.apply sampleWorld ∧
      issued sampleShaders (sampleOff.apply sampleWorld) = [] :=
  skipped_frame_is_noop sampleShaders (sampleOff.apply sampleWorld) (Or.inr (Or.inr rfl))

/-! ## Resets -/

/-- Claim C3.  After `resize(width, height)`, from any state, `mNeedFboClear`
is set, `mAccumCount` is 0 and the three check boxes are as before. -/
theorem resize_resets (w : World) (width height : Nat) :
    (resize width height w).self.mNeedFboClear = true ∧
    (resize width height w).self.mAccumCount = 0 ∧
    (resize width height w).self.mDoDenoise = w.self.mDoDenoise ∧
    (resize width height w).self.mBMFR_preprocess = w.self.mBMFR_preprocess ∧
    (resize width height w).self.mBMFR_postprocess = w.self.mBMFR_postprocess :=
  ⟨rfl, rfl, rfl, rfl, rfl⟩

/-- Claim C4, refuted as stated: on the sample world, where no clear is
pending, `initScene` resets the counter and still leaves `mNeedFboClear` off. -/
theorem initScene_full_reset_counterexample :
    (initScene { activeCamera := 9 } sampleWorld).self.mNeedFboClear = false ∧
    (resize 4 4 sampleWorld).self.mNeedFboClear = true ∧
    ¬ ((initScene { activeCamera := 9 } sampleWorld).self.mAccumCount = 0 ∧
        (initScene { activeCamera := 9 } sampleWorld).self.mNeedFboClear = true) := by
  decide

/-- Claim C4, amended.  From any state `initScene(scene)` stores the scene and
sets `mAccumCount` to 0; `mNeedFboClear` keeps the value it had, and nothing
else changes (pass object, textures, render context). -/
theorem initScene_resets_counter_only (w : World) (pScene : Scene) :
    (initScene pScene w).self.mAccumCount = 0 ∧
    (initScene pScene w).self.mNeedFboClear = w.self.mNeedFboClear ∧
    initScene pScene w =
      { w with self := { w.self with mpScene := pScene, mAccumCount := 0 } } :=
  ⟨rfl, rfl, rfl⟩

/-! ## Launches of an executed frame -/

theorem mem_issued_preprocess (X : Absent) (w : World) (h : Executed w = true)
    (v : PreprocessVars) (r : PreprocessIn) (t : GraphicsState)
    (hc : Cmd.executePreprocess v r t ∈ issued X w) :
    w.self.mBMFR_preprocess = true ∧ v = preprocessVars w ∧
      r = (preprocessVars w).reads w.resources ∧ t = w.self.mpGfxState := by
  rw [issued_executed X w h] at hc
  cases hp : w.self.mBMFR_preprocess <;> cases hq : w.self.mBMFR_postprocess <;>
    simp [stageCmds, copyCmds, hp, hq] at hc ⊢
  all_goals exact hc

theorem mem_issued_post (X : Absent) (w : World) (h : Executed w = true)
    (v : PostVars) (r : PostIn) (t : GraphicsState)
    (hc : Cmd.executePost v r t ∈ issued X w) :
    w.self.mBMFR_postprocess = true ∧ v = postVars w ∧
      r = (postVars w).reads (afterPreprocess X w) ∧ t = w.self.mpGfxState := by
  rw [issued_executed X w h] at hc
  cases hp : w.self.mBMFR_preprocess <;> cases hq : w.self.mBMFR_postprocess <;>
    simp [stageCmds, copyCmds, hp, hq] at hc ⊢
  all_goals exact hc

theorem afterPreprocess_inputs (X : Absent) (w : World) :
    (afterPreprocess X w).denoiseChannel = w.resources.denoiseChannel ∧
    (afterPreprocess X w).WorldPosition = w.resources.WorldPosition ∧
    (afterPreprocess X w).WorldNormal = w.resources.WorldNormal ∧
    (afterPreprocess X w).BMFR_PrevNoisy = w.resources.BMFR_PrevNoisy ∧
    (afterPreprocess X w).BMFR_Output = w.resources.BMFR_Output := by
  unfold afterPreprocess
  cases w.self.mBMFR_preprocess <;> simp

/-! ## Clear on resize -/

/-- Claim C5, evaluated where it fails: right after a resize of the sample
world a clear is pending and the history textures still hold their old data.
The frame is executed, the flag is cleared, and the first command is the
preprocess launch, which fetches the old data of `BMFR_PrevPos`,
`BMFR_PrevNorm`, `BMFR_PrevNoisy` and `BMFR_AcceptedBools`; nothing was
cleared. -/
theorem clear_on_resize_failing_input :
    (resize 4 4 sampleWorld).self.mNeedFboClear = true ∧
    Executed (resize 4 4 sampleWorld) = true ∧
    (execute sampleShaders (resize 4 4 sampleWorld)).self.mNeedFboClear = false ∧
    (issued sampleShaders (resize 4 4 sampleWorld)).head? =
      some (Cmd.executePreprocess
        { camera := 3
          gCurPos := some .WorldPosition
          gCurNorm := some .WorldNormal
          gCurNoisy := some .denoiseChannel
          gPrevPos := some .BMFR_PrevPos
          gPrevNorm := some .BMFR_PrevNorm
          gPrevNoisy := some .BMFR_PrevNoisy
          accept_bools := some .BMFR_AcceptedBools
          out_prev_frame_pixel := some .BMFR_PrevFramePixel
          frame_number := 0 }
        { camera := 3
          gCurPos := some [10, 11]
          gCurNorm := some [20, 21]
          gCurNoisy := some [1, 2]
          gPrevPos := some [50, 51]
          gPrevNorm := some [40, 41]
          gPrevNoisy := some [60, 61]
          accept_bools := some [70]
          out_prev_frame_pixel := some [80]
          frame_number := 0 }
        { fbo := some { width := 4, height := 4 } }) := by
  decide

/-! ## History hand-over -/

/-- Claim C6.  Let frame N start in `w` and be executed, let the host then
change check boxes and textures but not the three `BMFR_Prev*` textures, and
let the next call be executed too (frame N+1).  Then at frame N+1
`BMFR_PrevPos`, `BMFR_PrevNorm` and `BMFR_PrevNoisy` hold the `WorldPosition`,
`WorldNormal` and denoise-channel data of the start of frame N; a preprocess
launch of frame N+1 has these textures bound as `gPrevPos`, `gPrevNorm`,
`gPrevNoisy` and fetches that data; the launches of frame N fetched the same
data as their current position, normal and noisy input; and in frame N all
launches come before all copies, the three history copies among them. -/
theorem history_handover (X : Absent) (w : World) (u : HostUpdate)
    (hN : Executed w = true)
    (hPos : u.resources.BMFR_PrevPos = (execute X w).resources.BMFR_PrevPos)
    (hNorm : u.resources.BMFR_PrevNorm = (execute X w).resources.BMFR_PrevNorm)
    (hNoisy : u.resources.BMFR_PrevNoisy = (execute X w).resources.BMFR_PrevNoisy)
    (hN1 : Executed (u.apply (execute X w)) = true) :
    ((u.apply (execute X w)).resources.BMFR_PrevPos = w.resources.WorldPosition ∧
      (u.apply (execute X w)).resources.BMFR_PrevNorm = w.resources.WorldNormal ∧
      some (u.apply (execute X w)).resources.BMFR_PrevNoisy = w.resources.denoiseChannel) ∧
    (∀ v r t, Cmd.executePreprocess v r t ∈ issued X (u.apply (execute X w)) →
      v.gPrevPos = some .BMFR_PrevPos ∧ v.gPrevNorm = some .BMFR_PrevNorm ∧
      v.gPrevNoisy = some .BMFR_PrevNoisy ∧
      r.gPrevPos = some w.resources.WorldPosition ∧
      r.gPrevNorm = some w.resources.WorldNormal ∧
      r.gPrevNoisy = w.resources.denoiseChannel) ∧
    (∀ v r t, Cmd.executePreprocess v r t ∈ issued X w →
      r.gCurPos = some w.resources.WorldPosition ∧
      r.gCurNorm = some w.resources.WorldNormal ∧
      r.gCurNoisy = w.resources.denoiseChannel) ∧
    (∀ v r t, Cmd.executePost v r t ∈ issued X w →
      r.filtered_frame = w.resources.denoiseChannel) ∧
    (∃ launches copies, issued X w = launches ++ copies ∧
      (∀ c ∈ launches, c.isPreprocess = true ∨ c.isPost = true) ∧
      (∀ c ∈ copies, c.isBlit = true) ∧
      Cmd.blit (some .denoiseChannel) (some .BMFR_PrevNoisy) ∈ copies ∧
      Cmd.blit (some .WorldNormal) (some .BMFR_PrevNorm) ∈ copies ∧
      Cmd.blit (some .WorldPosition) (some .BMFR_PrevPos) ∈ copies) := by
  have hch : w.resources.denoiseChannel.isSome = true := ((Executed_eq_true w).1 hN).2.1
  obtain ⟨noisy, hnoisy⟩ := Option.isSome_iff_exists.1 hch
  have hres : (u.apply (execute X w)).resources = u.resources := rfl
  have e1 : u.resources.BMFR_PrevPos = w.resources.WorldPosition := by
    rw [hPos, execute_executed X w hN]; rfl
  have e2 : u.resources.BMFR_PrevNorm = w.resources.WorldNormal := by
    rw [hNorm, execute_executed X w hN]; rfl
  have e3 : some u.resources.BMFR_PrevNoisy = w.resources.denoiseChannel := by
    rw [hNoisy, execute_executed X w hN]
    simp [afterCopies, hnoisy]
  refine ⟨⟨by rw [hres]; exact e1, by rw [hres]; exact e2, by rw [hres]; exact e3⟩,
    ?_, ?_, ?_, ?_⟩
  · intro v r t hc
    obtain ⟨-, hv, hr, -⟩ := mem_issued_preprocess X _ hN1 v r t hc
    subst hv hr
    rw [hres]
    refine ⟨rfl, rfl, rfl, ?_, ?_, ?_⟩
    · simp [PreprocessVars.reads, preprocessVars, ResourceManager.fetch,
        ResourceManager.read, e1]
    · simp [PreprocessVars.reads, preprocessVars, ResourceManager.fetch,
        ResourceManager.read, e2]
    · simp [PreprocessVars.reads, preprocessVars, ResourceManager.fetch,
        ResourceManager.read, e3]
  · intro v r t hc
    obtain ⟨-, -, hr, -⟩ := mem_issued_preprocess X w hN v r t hc
    subst hr
    simp [PreprocessVars.reads, preprocessVars, ResourceManager.fetch, ResourceManager.read]
  · intro v r t hc
    obtain ⟨-, -, hr, -⟩ := mem_issued_post X w hN v r t hc
    subst hr
    simp [PostVars.reads, postVars, ResourceManager.fetch, ResourceManager.read,
      (afterPreprocess_inputs X w).1]
  · refine ⟨stageCmds X w, copyCmds w, issued_executed X w hN, ?_, ?_, ?_, ?_, ?_⟩
    · intro c hc
      cases hp : w.self.mBMFR_preprocess <;> cases hq : w.self.mBMFR_postprocess <;>
        simp [stageCmds, hp, hq] at hc <;> (try subst hc) <;>
        (try rcases hc with hc | hc <;> subst hc) <;> simp [Cmd.isPreprocess, Cmd.isPost]
    · intro c hc
      cases hq : w.self.mBMFR_postprocess
      · simp [copyCmds, hq] at hc
        rcases hc with hc | hc | hc <;> subst hc <;> rfl
      · simp [copyCmds, hq] at hc
        rcases hc with hc | hc | hc | hc <;> subst hc <;> rfl
    · simp [copyCmds]
    · simp [copyCmds]
    · simp [copyCmds]

/-- Evaluation of C6: one frame on the sample world, then a frame on new
renderer data; the history textures are those of the first frame. -/
theorem history_handover_witness :
    (sampleNext.apply (execute sampleShaders sampleWorld)).resources.BMFR_PrevPos = [10, 11] ∧
    (sampleNext.apply (execute sampleShaders sampleWorld)).resources.BMFR_PrevNorm = [20, 21] ∧
    some (sampleNext.apply (execute sampleShaders sampleWorld)).resources.BMFR_PrevNoisy
      = some [1, 2] :=
  (history_handover sampleShaders sampleWorld sampleNext (by decide) (by decide) (by decide)
    (by decide) (by decide)).1

/-! ## Where the output goes -/

/-- Claim C7, refuted as stated: the sample frame is executed with postprocess
on; afterwards `BMFR_PrevNoisy` holds the raw noisy input `[1, 2]`, not the
output `[101, 102]` of the blend stage. -/
theorem denoised_feedback_counterexample :
    Executed sampleWorld = true ∧ sampleWorld.self.mBMFR_postprocess = true ∧
    (execute sampleShaders sampleWorld).resources.BMFR_Output = [101, 102] ∧
    (execute sampleShaders sampleWorld).resources.BMFR_PrevNoisy = [1, 2] ∧
    ¬ ((execute sampleShaders sampleWorld).resources.BMFR_PrevNoisy
        = (execute sampleShaders sampleWorld).resources.BMFR_Output) := by
  decide

/-- Claim C7, amended.  After an executed frame with postprocess on,
`BMFR_Output` holds what the blend stage wrote, the denoise channel holds a
copy of it, and `BMFR_PrevNoisy` holds the noisy data the denoise channel had
when the frame started. -/
theorem output_feeds_denoise_channel (X : Absent) (w : World)
    (h : Executed w = true) (hPost : w.self.mBMFR_postprocess = true) :
    (execute X w).resources.BMFR_Output
      = X.postprocess ((postVars w).reads (afterPreprocess X w)) ∧
    (execute X w).resources.denoiseChannel = some (execute X w).resources.BMFR_Output ∧
    some (execute X w).resources.BMFR_PrevNoisy = w.resources.denoiseChannel := by
  have hch : w.resources.denoiseChannel.isSome = true := ((Executed_eq_true w).1 h).2.1
  obtain ⟨noisy, hnoisy⟩ := Option.isSome_iff_exists.1 hch
  rw [execute_executed X w h]
  simp [afterCopies, afterStages, hPost, hnoisy]

/-- Evaluation of the amended C7 on the sample frame. -/
theorem output_feeds_denoise_channel_witness :
    (execute sampleShaders sampleWorld).resources.denoiseChannel = some [101, 102] ∧
    some (execute sampleShaders sampleWorld).resources.BMFR_PrevNoisy = some [1, 2] := by
  have h := output_feeds_denoise_channel sampleShaders sampleWorld (by decide) (by decide)
  exact ⟨h.2.1.trans (by decide), h.2.2.trans (by decide)⟩

/-! ## Postprocess off -/

/-- Claim C8.  In an executed frame with postprocess off, `execute` submits
the preprocess launch (once, and only when preprocess is on) followed by the
three history copies and nothing else, so no postprocess launch; the denoise
channel and `BMFR_Output` keep their data; the history textures receive the
current noisy, normal and position data; the counter goes up by one. -/
theorem postprocess_off_frame (X : Absent) (w : World)
    (h : Executed w = true) (hPost : w.self.mBMFR_postprocess = false) :
    issued X w =
      (if w.self.mBMFR_preprocess then
        [Cmd.executePreprocess (preprocessVars w) ((preprocessVars w).reads w.resources)
          w.self.mpGfxState] else []) ++
      [Cmd.blit (some .denoiseChannel) (some .BMFR_PrevNoisy),
       Cmd.blit (some .WorldNormal) (some .BMFR_PrevNorm),
       Cmd.blit (some .WorldPosition) (some .BMFR_PrevPos)] ∧
    (issued X w).countP Cmd.isPost = 0 ∧
    (issued X w).countP Cmd.isPreprocess = (if w.self.mBMFR_preprocess then 1 else 0) ∧
    (execute X w).resources.denoiseChannel = w.resources.denoiseChannel ∧
    (execute X w).resources.BMFR_Output = w.resources.BMFR_Output ∧
    some (execute X w).resources.BMFR_PrevNoisy = w.resources.denoiseChannel ∧
    (execute X w).resources.BMFR_PrevNorm = w.resources.WorldNormal ∧
    (execute X w).resources.BMFR_PrevPos = w.resources.WorldPosition ∧
    (execute X w).self.mAccumCount = (w.self.mAccumCount + 1) % 2 ^ X.counterBits := by
  have hch : w.resources.denoiseChannel.isSome = true := ((Executed_eq_true w).1 h).2.1
  obtain ⟨noisy, hnoisy⟩ := Option.isSome_iff_exists.1 hch
  have hi : issued X w =
      (if w.self.mBMFR_preprocess then
        [Cmd.executePreprocess (preprocessVars w) ((preprocessVars w).reads w.resources)
          w.self.mpGfxState] else []) ++
      [Cmd.blit (some .denoiseChannel) (some .BMFR_PrevNoisy),
       Cmd.blit (some .WorldNormal) (some .BMFR_PrevNorm),
       Cmd.blit (some .WorldPosition) (some .BMFR_PrevPos)] := by
    rw [issued_executed X w h]
    simp [stageCmds, copyCmds, hPost]
  refine ⟨hi, ?_, ?_, ?_⟩
  · rw [hi]
    cases w.self.mBMFR_preprocess <;> simp [Cmd.isPost]
  · rw [hi]
    cases w.self.mBMFR_preprocess <;> simp [Cmd.isPreprocess]
  · have ho := (afterPreprocess_inputs X w).2.2.2.2
    rw [execute_executed X w h]
    simp [afterCopies, afterStages, passAfterFrame, hPost, hnoisy, ho]

/-- Evaluation of C8: the sample world with postprocess unticked. -/
theorem postprocess_off_frame_witness :
    (issued sampleShaders ((sampleOn true false).apply sampleWorld)).countP Cmd.isPost = 0 ∧
    (execute sampleShaders ((sampleOn true false).apply sampleWorld)).resources.BMFR_Output
      = [90, 91] :=
  have h := postprocess_off_frame sampleShaders ((sampleOn true false).apply sampleWorld)
    (by decide) (by decide)
  ⟨h.2.1, h.2.2.2.2.1.trans (by decide)⟩

/-! ## The regression filter -/

/-- Claim C9, refuted as stated: the sample frame is executed with postprocess
on, yet none of the commands it submits launches the bmfrDenoise shader, and
the one postprocess launch fetches the raw noisy data `[1, 2]` as
`filtered_frame`. -/
theorem regression_filter_counterexample :
    Executed sampleWorld = true ∧ sampleWorld.self.mBMFR_postprocess = true ∧
    (issued sampleShaders sampleWorld).countP Cmd.isDenoise = 0 ∧
    ¬ ((issued sampleShaders sampleWorld).countP Cmd.isDenoise = 1) ∧
    (issued sampleShaders sampleWorld).filterMap
        (fun c => match c with
          | .executePost _ r _ => some r.filtered_frame
          | _ => none) = [some [1, 2]] := by
  decide

/-- Claim C9, amended.  An executed frame never launches the bmfrDenoise
shader, it only sets its variables.  It launches the postprocess shader once
when postprocess is on and not at all when it is off, and that launch has the
denoise channel bound as `filtered_frame` and fetches the noisy data the
channel had when the frame started. -/
theorem regression_filter_never_run (X : Absent) (w : World) (h : Executed w = true) :
    (issued X w).countP Cmd.isDenoise = 0 ∧
    (execute X w).self.mpDenoiseShader =
      { gAccumCount := w.self.mAccumCount
        gPos := some .WorldPosition
        gNorm := some .WorldNormal
        gDiffuseMatl := some .MaterialDiffuse } ∧
    (issued X w).countP Cmd.isPost = (if w.self.mBMFR_postprocess then 1 else 0) ∧
    (∀ v r t, Cmd.executePost v r t ∈ issued X w →
      v.filtered_frame = some .denoiseChannel ∧
      r.filtered_frame = w.resources.denoiseChannel) := by
  refine ⟨?_, ?_, ?_, ?_⟩
  · rw [issued_executed X w h]
    cases hp : w.self.mBMFR_preprocess <;> cases hq : w.self.mBMFR_postprocess <;>
      simp [stageCmds, copyCmds, hp, hq, Cmd.isDenoise]
  · rw [execute_executed X w h]
    rfl
  · rw [issued_executed X w h]
    cases hp : w.self.mBMFR_preprocess <;> cases hq : w.self.mBMFR_postprocess <;>
      simp [stageCmds, copyCmds, hp, hq, Cmd.isPost]
  · intro v r t hc
    obtain ⟨-, hv, hr, -⟩ := mem_issued_post X w h v r t hc
    subst hv hr
    simp [PostVars.reads, postVars, ResourceManager.fetch, ResourceManager.read,
      (afterPreprocess_inputs X w).1]

/-- Evaluation of the amended C9 on the sample frame. -/
theorem regression_filter_never_run_witness :
    (issued sampleShaders sampleWorld).countP Cmd.isDenoise = 0 ∧
    (issued sampleShaders sampleWorld).countP Cmd.isPost = 1 :=
  have h := regression_filter_never_run sampleShaders sampleWorld (by decide)
  ⟨h.1, h.2.2.1.trans (by decide)⟩

/-! ## Frame number -/

theorem issued_frame_numbers (X : Absent) (w : World) (h : Executed w = true) :
    (issued X w).filterMap Cmd.frame_number =
      List.replicate
        ((if w.self.mBMFR_preprocess then 1 else 0) + (if w.self.mBMFR_postprocess then 1 else 0))
        w.self.mAccumCount := by
  rw [issued_executed X w h]
  cases hp : w.self.mBMFR_preprocess <;> cases hq : w.self.mBMFR_postprocess <;>
    simp [stageCmds, copyCmds, hp, hq, Cmd.frame_number, preprocessVars, postVars,
      List.replicate]

/-- Claim C10.  In an executed frame every stage launch (one per ticked stage,
preprocess first) gets as `frame_number` the value `mAccumCount` had when the
frame started.  Hence, starting right after `resize` or `initScene` and after
any sequence of calls without counter overflow, the next executed frame hands
its stages the number of executed frames since the reset: 0 for the first. -/
theorem frame_number_is_counter (X : Absent) (w₀ start w : World) (width height : Nat)
    (pScene : Scene) (us : List HostUpdate) (u : HostUpdate)
    (hw : Executed w = true)
    (hStart : start = resize width height w₀ ∨ start = initScene pScene w₀)
    (hRun : executedFrames X start us < 2 ^ X.counterBits)
    (hu : Executed (u.apply (runFrames X start us)) = true) :
    (issued X w).filterMap Cmd.frame_number =
      List.replicate
        ((if w.self.mBMFR_preprocess then 1 else 0) + (if w.self.mBMFR_postprocess then 1 else 0))
        w.self.mAccumCount ∧
    (issued X (u.apply (runFrames X start us))).filterMap Cmd.frame_number =
      List.replicate
        ((if u.mBMFR_preprocess then 1 else 0) + (if u.mBMFR_postprocess then 1 else 0))
        (executedFrames X start us) ∧
    (issued X (u.apply start)).filterMap Cmd.frame_number =
      List.replicate
        ((if u.mBMFR_preprocess then 1 else 0) + (if u.mBMFR_postprocess then 1 else 0)) 0 := by
  have h0 : start.self.mAccumCount = 0 := by
    rcases hStart with h | h <;> subst h <;> rfl
  have hc : (runFrames X start us).self.mAccumCount = executedFrames X start us := by
    have h := runFrames_count X us start
    rw [h0] at h
    simpa using h (by omega)
  have hu0 : Executed (u.apply start) = true := by
    have hp : (runFrames X start us).self.mpResManager = start.self.mpResManager := by
      clear hu hc hRun h0 hStart
      induction us generalizing start with
      | nil => rfl
      | cons a as ih =>
        simp only [runFrames]
        rw [ih]
        cases he : Executed (a.apply start)
        · rw [execute_skipped X _ he]; rfl
        · rw [execute_executed X _ he]; rfl
    rw [Executed_eq_true] at hu ⊢
    exact ⟨hp ▸ hu.1, hu.2.1, hu.2.2⟩
  refine ⟨issued_frame_numbers X w hw, ?_, ?_⟩
  · rw [issued_frame_numbers X _ hu]
    show List.replicate _ (runFrames X start us).self.mAccumCount = _
    rw [hc]
    rfl
  · rw [issued_frame_numbers X _ hu0]
    show List.replicate _ start.self.mAccumCount = _
    rw [h0]
    rfl

/-- Evaluation of C10: after a resize and three calls, two of them executed,
both launches of the next frame get frame number 2. -/
theorem frame_number_is_counter_witness :
    (issued sampleShaders ((sampleOn true true).apply
      (runFrames sampleShaders (resize 4 4 sampleWorld)
        [sampleOn true true, sampleOff, sampleOn false false]))).filterMap Cmd.frame_number
      = [2, 2] :=
  have h := frame_number_is_counter sampleShaders sampleWorld (resize 4 4 sampleWorld)
    sampleWorld 4 4 { activeCamera := 0 }
    [sampleOn true true, sampleOff, sampleOn false false] (sampleOn true true)
    (by decide) (Or.inl rfl) (by decide) (by decide)
  h.2.1.trans (by decide)

end BMFR
